import Mathlib

/-!
Verification of the WhatsApp gateway service (src/index.js) against its
natural-language specification.

The service keeps four module-level mutable variables (sock, qrCodeData,
isConnected, connectionStatus), persists credentials in a directory on disk,
and exposes HTTP operations: initialize (connect + bounded poll), status,
groups, publish (direct or group dispatch) and logout.  We embed that state
and those operations shallowly: the transport handle is identified by its
allocation index, the on-disk credential directory by a Boolean, and the
asynchronous transport events (qr, close, open, creds.update) by an event
type applied to the state exactly as the connection.update handler does.
-/

namespace WS

/-- Module-level mutable state of the service (src/index.js lines 13-19),
extended with the observables needed to state the claims: whether the
auth_info directory exists on disk, how many transport instances have been
allocated so far (the handle stores the index of the latest allocation),
and whether a reconnect timer is pending. -/
structure St where
  sock : Option Nat
  qrCodeData : Option String
  isConnected : Bool
  connectionStatus : String
  authExists : Bool
  allocCount : Nat
  pendingReconnect : Bool
  deriving Repr, DecidableEq

/-- Process start: sock = null, qrCodeData = null, isConnected = false,
connectionStatus = 'disconnected'; the auth directory may or may not
already exist on disk. -/
def initSt (auth : Bool) : St :=
  { sock := none, qrCodeData := none, isConnected := false,
    connectionStatus := "disconnected", authExists := auth,
    allocCount := 0, pendingReconnect := false }

/-- Baileys DisconnectReason.loggedOut status code. -/
def loggedOutCode : Nat := 401

/-- Fixed reconnect backoff in milliseconds (setTimeout delay, line 50). -/
def backoffMs : Nat := 3000

/-- Poll sleep interval in milliseconds (line 77). -/
def pollIntervalMs : Nat := 500

/-- Maximum number of poll iterations (attempts < 20, line 76). -/
def maxPollAttempts : Nat := 20

/-- connectToWhatsApp (lines 21-61): loads the persisted auth state and
assigns a freshly allocated socket to the module-level handle.  It touches
neither qrCodeData, isConnected nor connectionStatus. -/
def connectToWhatsApp (s : St) : St :=
  { s with sock := some s.allocCount, allocCount := s.allocCount + 1 }

/-- Transport lifecycle events delivered to the connection.update and
creds.update handlers registered on the live socket. -/
inductive Ev
  | qr (code : String)
  | closeEv (reason : Option Nat)
  | openEv
  | credsUpdate

/-- Effect of one transport event on the state, exactly as the handlers at
lines 32-60 perform it.  Events are emitted by the live transport, so they
only apply when a handle is present. -/
def applyEv (e : Ev) (s : St) : St :=
  if s.sock = none then s else
  match e with
  | Ev.qr code =>
      { s with qrCodeData := some code, connectionStatus := "qr_ready" }
  | Ev.closeEv reason =>
      if reason = some loggedOutCode then
        { s with isConnected := false, connectionStatus := "disconnected",
                 qrCodeData := none }
      else
        { s with isConnected := false, connectionStatus := "disconnected",
                 qrCodeData := none, pendingReconnect := true }
  | Ev.openEv =>
      { s with isConnected := true, connectionStatus := "connected",
               qrCodeData := none }
  | Ev.credsUpdate =>
      { s with authExists := true }

/-- Apply a batch of events in order. -/
def applyEvs (evs : List Ev) (s : St) : St :=
  evs.foldl (fun t e => applyEv e t) s

/-- The 3-second reconnect timer firing: re-invokes connectToWhatsApp
(line 50).  The timer exists only when a recoverable close scheduled it. -/
def reconnectFire (s : St) : St :=
  if s.pendingReconnect then
    connectToWhatsApp { s with pendingReconnect := false }
  else s

/-- Entry of POST /initialize (lines 64-72): if a handle exists and we are
connected, return the current state unchanged (the Boolean marks the early
return); otherwise clear the pairing code, set status to initializing and
run connectToWhatsApp, allocating a fresh transport. -/
def initEntry (s : St) : St × Bool :=
  if s.sock.isSome && s.isConnected then (s, true)
  else
    (connectToWhatsApp
      { s with qrCodeData := none, connectionStatus := "initializing" },
     false)

/-- The bounded wait loop of POST /initialize (lines 75-79): while no
pairing code is stored, fewer than 20 attempts have been made and the
status is not 'connected', sleep 500 ms (during which transport events may
arrive, supplied by the environment per attempt) and increment the attempt
counter.  Returns the final state and the number of iterations performed. -/
def pollLoop (env : Nat → List Ev) : Nat → St → Nat → St × Nat
  | 0, s, att => (s, att)
  | fuel + 1, s, att =>
    if s.qrCodeData = none ∧ s.connectionStatus ≠ "connected" then
      pollLoop env fuel (applyEvs (env att) s) (att + 1)
    else (s, att)

/-- Outcome reported by POST /initialize. -/
inductive InitOutcome
  | alreadyConnected
  | authenticated
  | qrReady (code : String)
  | failed
  deriving Repr, DecidableEq

/-- Result of POST /initialize: final state, reported outcome, number of
poll iterations performed (each preceded by a 500 ms sleep). -/
structure InitOut where
  state : St
  outcome : InitOutcome
  attempts : Nat
  deriving Repr, DecidableEq

/-- POST /initialize (lines 64-92): early return when already connected;
otherwise reset, connect, poll up to 20 times, then report connected,
qr_ready, or a 500 failure when neither was observed. -/
def initRoute (env : Nat → List Ev) (s : St) : InitOut :=
  let e := initEntry s
  if e.2 then
    { state := e.1, outcome := InitOutcome.alreadyConnected, attempts := 0 }
  else
    let p := pollLoop env maxPollAttempts e.1 0
    if p.1.isConnected then
      { state := p.1, outcome := InitOutcome.authenticated, attempts := p.2 }
    else
      match p.1.qrCodeData with
      | some c =>
          { state := p.1, outcome := InitOutcome.qrReady c, attempts := p.2 }
      | none =>
          { state := p.1, outcome := InitOutcome.failed, attempts := p.2 }

/-- Result of POST /logout: final state, HTTP status and success flag. -/
structure LogoutOut where
  state : St
  httpStatus : Nat
  success : Bool
  deriving Repr, DecidableEq

/-- POST /logout (lines 223-244): if a handle exists, await sock.logout()
— when that teardown throws, the catch block answers 500 with success
false and none of the subsequent resets run.  Otherwise the auth directory
is removed, the state is reset to disconnected and the handle released. -/
def logout (s : St) (teardownThrows : Bool) : LogoutOut :=
  if s.sock.isSome && teardownThrows then
    { state := s, httpStatus := 500, success := false }
  else
    { state := { s with isConnected := false,
                        connectionStatus := "disconnected",
                        qrCodeData := none, sock := none,
                        authExists := false },
      httpStatus := 200, success := true }

/-- The WhatsApp address-domain suffix appended by formatPhoneNumber. -/
def waDomain : String := "@s.whatsapp.net"

/-- formatPhoneNumber (lines 136-149): remove all non-digit characters;
if the result starts with 00, drop those two characters; remove a leading
plus sign if present; append the address-domain suffix. -/
def formatPhoneNumber (number : String) : String :=
  let cleaned := number.toList.filter (fun c => c.isDigit)
  let cleaned := match cleaned with
    | '0' :: '0' :: rest => rest
    | l => l
  let cleaned := match cleaned with
    | '+' :: rest => rest
    | l => l
  String.mk cleaned ++ waDomain

/-- Modelled from the spec's words (section 4.2, step 1), for comparison
with the source's formatPhoneNumber: strip all non-digit characters; if
the result begins with the international-prefix escape 00, drop those two
leading characters; strip any remaining leading plus; append the network's
fixed address-domain suffix. -/
def specNormalize (s : String) : String :=
  let digitsOnly := s.toList.filter (fun c => c.isDigit)
  let noEscape := match digitsOnly with
    | '0' :: '0' :: rest => rest
    | l => l
  let noPlus := match noEscape with
    | '+' :: rest => rest
    | l => l
  String.mk noPlus ++ waDomain

/-- JavaScript truthiness of an optional string field of the request body:
undefined and the empty string are falsy. -/
def truthy : Option String → Bool
  | none => false
  | some s => s ≠ ""

/-- Body of POST /publish (line 158). -/
structure PublishReq where
  mode : Option String
  recipients : Option (List String)
  groupId : Option String
  caption : Option String
  mediaUrl : Option String
  mediaType : Option String
  deriving Repr, DecidableEq

/-- One entry of the results array (recipient identifier, success flag,
optional error message). -/
structure Entry where
  recipient : String
  success : Bool
  error : Option String
  deriving Repr, DecidableEq

/-- A sendMessage invocation: the addressed target and the payload shape. -/
inductive Msg
  | text (target body : String)
  | image (target url caption : String)
  | video (target url caption : String)
  deriving Repr, DecidableEq

/-- The address a message was sent to. -/
def Msg.target : Msg → String
  | Msg.text t _ => t
  | Msg.image t _ _ => t
  | Msg.video t _ _ => t

/-- Payload selection of a single send (lines 172-181 and 194-201): when
mediaUrl is truthy, a media message — video exactly when mediaType is the
string 'video', image otherwise — else a plain text message carrying the
caption. -/
def sendPayload (target caption : String) (mediaUrl mediaType : Option String) : Msg :=
  if truthy mediaUrl then
    if mediaType = some "video" then Msg.video target (mediaUrl.getD "") caption
    else Msg.image target (mediaUrl.getD "") caption
  else Msg.text target caption

/-- Outcome entry pushed for one recipient: success without error field,
or failure carrying the thrown error's message (lines 183 and 186). -/
def mkEntry (res : Option String) (r : String) : Entry :=
  match res with
  | none => { recipient := r, success := true, error := none }
  | some e => { recipient := r, success := false, error := some e }

/-- The direct-mode loop (lines 168-188): for each recipient in order,
format the number, attempt the send (the oracle gives the error thrown by
the i-th sendMessage call, none meaning success) and push an outcome entry;
a failure never stops the iteration.  Returns the entries and the
sendMessage invocations made, both in order. -/
def directLoop (sendRes : Nat → Option String) (caption : String)
    (mediaUrl mediaType : Option String) : List String → Nat → List Entry × List Msg
  | [], _ => ([], [])
  | r :: rest, i =>
    let msg := sendPayload (formatPhoneNumber r) caption mediaUrl mediaType
    let rec0 := directLoop sendRes caption mediaUrl mediaType rest (i + 1)
    (mkEntry (sendRes i) r :: rec0.1, msg :: rec0.2)

/-- Response of POST /publish plus the list of sendMessage invocations the
handler made. -/
structure PubOut where
  httpStatus : Nat
  success : Bool
  message : String
  results : List Entry
  sent : List Msg
  deriving Repr, DecidableEq

/-- POST /publish (lines 152-220): reject with 400 when no connected
handle; reject with 400 when mode or caption is falsy; run the direct-mode
loop when mode is 'numbers' and recipients is a non-empty array; send once
to the raw groupId when mode is 'group' and groupId is truthy; answer 200
with success equal to the conjunction of the pushed outcomes. -/
def publish (s : St) (req : PublishReq) (sendRes : Nat → Option String) : PubOut :=
  if !(s.sock.isSome && s.isConnected) then
    { httpStatus := 400, success := false,
      message := "WhatsApp not connected", results := [], sent := [] }
  else if !(truthy req.mode && truthy req.caption) then
    { httpStatus := 400, success := false,
      message := "Missing required fields", results := [], sent := [] }
  else
    let caption := req.caption.getD ""
    let direct :=
      if req.mode = some "numbers" ∧ req.recipients.getD [] ≠ [] ∧ req.recipients.isSome then
        directLoop sendRes caption req.mediaUrl req.mediaType (req.recipients.getD []) 0
      else ([], [])
    let group :=
      if req.mode = some "group" ∧ truthy req.groupId then
        let msg := sendPayload (req.groupId.getD "") caption req.mediaUrl req.mediaType
        (mkEntry (sendRes direct.1.length) "group" :: ([] : List Entry), [msg])
      else ([], [])
    let results := direct.1 ++ group.1
    let ok := results.all (fun r => r.success)
    { httpStatus := 200, success := ok,
      message := if ok then "Messages sent successfully" else "Some messages failed",
      results := results, sent := direct.2 ++ group.2 }

/-- One atomic step of the service: a transport event on the live socket,
the reconnect timer firing, a full /initialize call (with the transport
events arriving during each poll sleep given by the environment), a
/logout call, or the startup auto-connect that runs when the auth
directory already exists (lines 252-255). -/
inductive Step
  | ev (e : Ev)
  | reconnect
  | initOp (env : Nat → List Ev)
  | logoutOp (teardownThrows : Bool)
  | autoConnect

/-- Effect of one step on the state. -/
def stepFn (s : St) (st : Step) : St :=
  match st with
  | Step.ev e => applyEv e s
  | Step.reconnect => reconnectFire s
  | Step.initOp env => (initRoute env s).state
  | Step.logoutOp b => (logout s b).state
  | Step.autoConnect => if s.authExists then connectToWhatsApp s else s

/-- State reached from process start by a trace of steps. -/
def run (auth : Bool) (tr : List Step) : St :=
  tr.foldl stepFn (initSt auth)

/-- The invariant claimed by the spec (section 8, first testable property):
the pairing code is non-null exactly in phase PairingReady, and the
transport handle is non-null exactly outside phase Disconnected. -/
def ClaimedInv (s : St) : Prop :=
  (s.qrCodeData.isSome ↔ s.connectionStatus = "qr_ready")
  ∧ (s.sock.isSome ↔ s.connectionStatus ≠ "disconnected")

instance (s : St) : Decidable (ClaimedInv s) := by
  unfold ClaimedInv; infer_instance

/-- The invariant the code actually maintains: the pairing-code half of the
spec's invariant, and only the forward direction of the handle half — a
non-Disconnected phase implies a live handle, but a handle may survive
into Disconnected (the close handler never clears sock, and the startup
auto-connect allocates while the status is still 'disconnected'). -/
def ActualInv (s : St) : Prop :=
  (s.qrCodeData.isSome ↔ s.connectionStatus = "qr_ready")
  ∧ (s.connectionStatus ≠ "disconnected" → s.sock.isSome = true)

instance (s : St) : Decidable (ActualInv s) := by
  unfold ActualInv; infer_instance

/-- Helper: no transport event ever changes the handle. -/
theorem applyEv_sock (e : Ev) (s : St) : (applyEv e s).sock = s.sock := by
  cases e <;> simp only [applyEv] <;> split_ifs <;> rfl

/-- Helper: a batch of transport events never changes the handle. -/
theorem applyEvs_sock (evs : List Ev) (s : St) : (applyEvs evs s).sock = s.sock := by
  induction evs generalizing s with
  | nil => rfl
  | cons e rest ih => exact (ih (applyEv e s)).trans (applyEv_sock e s)

/-- Helper: the wait loop never changes the handle. -/
theorem pollLoop_sock (env : Nat → List Ev) (fuel : Nat) (s : St) (att : Nat) :
    (pollLoop env fuel s att).1.sock = s.sock := by
  induction fuel generalizing s att with
  | zero => rfl
  | succ n ih =>
    unfold pollLoop
    split
    · exact ((ih _ _).trans (applyEvs_sock _ s))
    · rfl

/-- Helper: the wait loop performs at most fuel iterations. -/
theorem pollLoop_att (env : Nat → List Ev) (fuel : Nat) (s : St) (att : Nat) :
    (pollLoop env fuel s att).2 ≤ att + fuel := by
  induction fuel generalizing s att with
  | zero => simp [pollLoop]
  | succ n ih =>
    unfold pollLoop
    split
    · exact le_trans (ih _ _) (by omega)
    · simp

/-- Helper: the direct-mode loop in closed form — one entry per recipient in
input order, the i-th entry determined by the i-th send outcome, and one
sendMessage invocation per recipient with the normalized address. -/
theorem directLoop_spec (sendRes : Nat → Option String) (caption : String)
    (mu mt : Option String) :
    ∀ (l : List String) (i : Nat),
    directLoop sendRes caption mu mt l i
      = (l.mapIdx (fun j r => mkEntry (sendRes (i + j)) r),
         l.map (fun r => sendPayload (formatPhoneNumber r) caption mu mt)) := by
  intro l
  induction l with
  | nil => intro i; simp [directLoop]
  | cons r rest ih =>
    intro i
    have hfun : (fun j a => mkEntry (sendRes (i + 1 + j)) a)
        = (fun j a => mkEntry (sendRes (i + (j + 1))) a) := by
      funext j a
      exact congrArg (fun n => mkEntry (sendRes n) a) (by omega)
    simp only [directLoop, ih (i + 1), List.mapIdx_cons, List.map_cons, Nat.add_zero, hfun]

/-- A concrete reachable connected state: /initialize during which the
transport's open event arrives at the first poll sleep. -/
def sConn : St := run false [Step.initOp (fun _ => [Ev.openEv])]

/-- State and iteration count of the wait loop entered by /initialize when
not already connected. -/
def pollAfterConnect (env : Nat → List Ev) (s : St) : St × Nat :=
  pollLoop env maxPollAttempts
    (connectToWhatsApp
      { s with qrCodeData := none, connectionStatus := "initializing" }) 0

/-- The post-loop dispatch of /initialize on the stored pairing code. -/
def qrOutcome (p : St × Nat) : InitOut :=
  match p.1.qrCodeData with
  | some c => { state := p.1, outcome := InitOutcome.qrReady c, attempts := p.2 }
  | none => { state := p.1, outcome := InitOutcome.failed, attempts := p.2 }

/-- Helper: string literal facts used when discharging invariant components. -/
theorem str_disc_ne_qr : ("disconnected" : String) ≠ "qr_ready" := by decide

/-- Helper string fact. -/
theorem str_conn_ne_qr : ("connected" : String) ≠ "qr_ready" := by decide

/-- Helper string fact. -/
theorem str_init_ne_qr : ("initializing" : String) ≠ "qr_ready" := by decide

/-- Helper: an option that is not none is some. -/
theorem isSome_of_ne_none {o : Option Nat} (h : ¬ o = none) : o.isSome = true :=
  Option.isSome_iff_ne_none.mpr h

/-- Helper: events are inert without a live handle. -/
theorem applyEv_noSock (e : Ev) (s : St) (hs : s.sock = none) : applyEv e s = s := by
  cases e <;> simp [applyEv, hs]

/-- Helper: effect of a qr event on a live handle. -/
theorem applyEv_qr (code : String) (s : St) (hs : ¬ s.sock = none) :
    applyEv (Ev.qr code) s
      = { s with qrCodeData := some code, connectionStatus := "qr_ready" } := by
  simp [applyEv, hs]

/-- Helper: effect of a close event whose reason is the logged-out code. -/
theorem applyEv_close_term (reason : Option Nat) (s : St) (hs : ¬ s.sock = none)
    (hr : reason = some loggedOutCode) :
    applyEv (Ev.closeEv reason) s
      = { s with isConnected := false, connectionStatus := "disconnected",
                 qrCodeData := none } := by
  simp [applyEv, hs, hr]

/-- Helper: effect of a close event with any other reason. -/
theorem applyEv_close_rec (reason : Option Nat) (s : St) (hs : ¬ s.sock = none)
    (hr : ¬ reason = some loggedOutCode) :
    applyEv (Ev.closeEv reason) s
      = { s with isConnected := false, connectionStatus := "disconnected",
                 qrCodeData := none, pendingReconnect := true } := by
  simp [applyEv, hs, hr]

/-- Helper: effect of an open event on a live handle. -/
theorem applyEv_open (s : St) (hs : ¬ s.sock = none) :
    applyEv Ev.openEv s
      = { s with isConnected := true, connectionStatus := "connected",
                 qrCodeData := none } := by
  simp [applyEv, hs]

/-- Helper: effect of a creds.update event on a live handle. -/
theorem applyEv_creds (s : St) (hs : ¬ s.sock = none) :
    applyEv Ev.credsUpdate s = { s with authExists := true } := by
  simp [applyEv, hs]

/-- Helper: each transport-event handler preserves the actual invariant. -/
theorem actualInv_applyEv (e : Ev) (s : St) (h : ActualInv s) :
    ActualInv (applyEv e s) := by
  by_cases hs : s.sock = none
  · rw [applyEv_noSock e s hs]; exact h
  · have hsock : s.sock.isSome = true := isSome_of_ne_none hs
    cases e with
    | qr code =>
      rw [applyEv_qr code s hs]
      exact ⟨iff_of_true rfl rfl, fun _ => hsock⟩
    | closeEv reason =>
      by_cases hr : reason = some loggedOutCode
      · rw [applyEv_close_term reason s hs hr]
        exact ⟨iff_of_false (fun hq => Bool.noConfusion hq) str_disc_ne_qr,
               fun hc => absurd rfl hc⟩
      · rw [applyEv_close_rec reason s hs hr]
        exact ⟨iff_of_false (fun hq => Bool.noConfusion hq) str_disc_ne_qr,
               fun hc => absurd rfl hc⟩
    | openEv =>
      rw [applyEv_open s hs]
      exact ⟨iff_of_false (fun hq => Bool.noConfusion hq) str_conn_ne_qr,
             fun _ => hsock⟩
    | credsUpdate =>
      rw [applyEv_creds s hs]
      exact ⟨h.1, h.2⟩

/-- Helper: event batches preserve the actual invariant. -/
theorem actualInv_applyEvs (evs : List Ev) (s : St) (h : ActualInv s) :
    ActualInv (applyEvs evs s) := by
  induction evs generalizing s with
  | nil => exact h
  | cons e rest ih => exact ih _ (actualInv_applyEv e s h)

/-- Helper: connectToWhatsApp preserves the actual invariant. -/
theorem actualInv_connect (s : St) (h : ActualInv s) :
    ActualInv (connectToWhatsApp s) :=
  ⟨h.1, fun _ => rfl⟩

/-- Helper: the wait loop preserves the actual invariant. -/
theorem actualInv_pollLoop (env : Nat → List Ev) (fuel : Nat) (s : St)
    (att : Nat) (h : ActualInv s) : ActualInv (pollLoop env fuel s att).1 := by
  induction fuel generalizing s att with
  | zero => exact h
  | succ n ih =>
    unfold pollLoop
    split
    · exact ih _ _ (actualInv_applyEvs _ _ h)
    · exact h

/-- Helper: the /initialize entry preserves the actual invariant. -/
theorem actualInv_initEntry (s : St) (h : ActualInv s) :
    ActualInv (initEntry s).1 := by
  unfold initEntry
  split
  · exact h
  · exact ⟨iff_of_false (fun hq => Bool.noConfusion hq) str_init_ne_qr,
           fun _ => rfl⟩

/-- Helper: a full /initialize call preserves the actual invariant. -/
theorem actualInv_initRoute (env : Nat → List Ev) (s : St) (h : ActualInv s) :
    ActualInv (initRoute env s).state := by
  have hp : ActualInv (pollLoop env maxPollAttempts (initEntry s).1 0).1 :=
    actualInv_pollLoop env maxPollAttempts _ 0 (actualInv_initEntry s h)
  simp only [initRoute]
  split
  · exact actualInv_initEntry s h
  · split
    · exact hp
    · split
      · exact hp
      · exact hp

/-- Helper: a /logout call preserves the actual invariant. -/
theorem actualInv_logout (s : St) (b : Bool) (h : ActualInv s) :
    ActualInv (logout s b).state := by
  unfold logout
  split
  · exact h
  · exact ⟨iff_of_false (fun hq => Bool.noConfusion hq) str_disc_ne_qr,
           fun hc => absurd rfl hc⟩

/-- Helper: every atomic step of the service preserves the actual invariant. -/
theorem actualInv_step (s : St) (st : Step) (h : ActualInv s) :
    ActualInv (stepFn s st) := by
  cases st with
  | ev e => simp only [stepFn]; exact actualInv_applyEv e s h
  | reconnect =>
    simp only [stepFn]
    unfold reconnectFire
    split
    · exact actualInv_connect _ ⟨h.1, h.2⟩
    · exact h
  | initOp env => simp only [stepFn]; exact actualInv_initRoute env s h
  | logoutOp b => simp only [stepFn]; exact actualInv_logout s b h
  | autoConnect =>
    simp only [stepFn]
    split
    · exact actualInv_connect s h
    · exact h

/-- Helper: the initial state satisfies the actual invariant. -/
theorem actualInv_initSt (auth : Bool) : ActualInv (initSt auth) :=
  ⟨iff_of_false (fun hq => Bool.noConfusion hq) str_disc_ne_qr,
   fun hc => absurd rfl hc⟩

/-- C1 counterexample: the claimed invariant fails on a reachable state.
Run /initialize with no events arriving (the attempt stays alive, status
'initializing', handle allocated), then deliver a transport close with no
reason: the handler resets the status to 'disconnected' but never clears
sock, so the transport handle is non-null while the phase is Disconnected,
refuting the claimed equivalence. -/
theorem c1_counterexample :
    ¬ ClaimedInv (run false [Step.initOp (fun _ => []), Step.ev (Ev.closeEv none)])
    ∧ (run false [Step.initOp (fun _ => []), Step.ev (Ev.closeEv none)]).sock = some 0
    ∧ (run false [Step.initOp (fun _ => []), Step.ev (Ev.closeEv none)]).connectionStatus
        = "disconnected" := by
  refine ⟨by decide, by decide, by decide⟩

/-- C1 amended: in every reachable state the pairing code is non-null if
and only if the phase is PairingReady, and a phase other than Disconnected
implies the transport handle is non-null; the converse of the handle half
fails because a transport close retains the handle while the phase becomes
Disconnected (and the startup auto-connect allocates a handle while the
phase is still Disconnected). -/
theorem c1_invariant (auth : Bool) (tr : List Step) : ActualInv (run auth tr) := by
  suffices h : ∀ (l : List Step) (s : St), ActualInv s → ActualInv (l.foldl stepFn s) by
    exact h tr (initSt auth) (actualInv_initSt auth)
  intro l
  induction l with
  | nil => intro s hs; exact hs
  | cons a l ih => intro s hs; exact ih _ (actualInv_step s a hs)

/-- C1 witness: the amended invariant evaluated on a concrete reachable
state holding a pairing code. -/
theorem c1_witness :
    ActualInv (run false [Step.initOp (fun _ => [Ev.qr "PAIR"])]) :=
  c1_invariant false [Step.initOp (fun _ => [Ev.qr "PAIR"])]

/-- Helper: /initialize entry when a connected handle exists. -/
theorem initEntry_connected (s : St) (h : (s.sock.isSome && s.isConnected) = true) :
    initEntry s = (s, true) := by
  unfold initEntry
  rw [if_pos h]

/-- Helper: /initialize entry when not connected allocates a fresh handle. -/
theorem initEntry_notConnected (s : St) (h : (s.sock.isSome && s.isConnected) = false) :
    initEntry s
      = (connectToWhatsApp
          { s with qrCodeData := none, connectionStatus := "initializing" },
         false) := by
  unfold initEntry
  rw [if_neg (by simp [h])]

/-- Helper: qrOutcome when a pairing code is stored. -/
theorem qrOutcome_some (p : St × Nat) (c : String) (hq : p.1.qrCodeData = some c) :
    qrOutcome p
      = { state := p.1, outcome := InitOutcome.qrReady c, attempts := p.2 } := by
  simp [qrOutcome, hq]

/-- Helper: qrOutcome when no pairing code is stored. -/
theorem qrOutcome_none (p : St × Nat) (hq : p.1.qrCodeData = none) :
    qrOutcome p
      = { state := p.1, outcome := InitOutcome.failed, attempts := p.2 } := by
  simp [qrOutcome, hq]

/-- Helper: /initialize in the not-connected case is the wait loop followed
by the three-way dispatch. -/
theorem initRoute_notConnected (env : Nat → List Ev) (s : St)
    (hb : (s.sock.isSome && s.isConnected) = false) :
    initRoute env s
      = (if (pollAfterConnect env s).1.isConnected then
          { state := (pollAfterConnect env s).1,
            outcome := InitOutcome.authenticated,
            attempts := (pollAfterConnect env s).2 }
        else qrOutcome (pollAfterConnect env s)) := by
  simp [initRoute, initEntry_notConnected s hb, pollAfterConnect, qrOutcome]

/-- Helper: after the /initialize allocation, the handle survives the whole
wait loop untouched. -/
theorem pollAfterConnect_sock (env : Nat → List Ev) (s : St) :
    (pollAfterConnect env s).1.sock = some s.allocCount := by
  unfold pollAfterConnect
  rw [pollLoop_sock]
  rfl

/-- Helper: /logout when the teardown does not throw. -/
theorem logout_noThrow (s : St) (b : Bool) (hb : (s.sock.isSome && b) = false) :
    logout s b
      = { state := { s with isConnected := false,
                            connectionStatus := "disconnected",
                            qrCodeData := none, sock := none,
                            authExists := false },
          httpStatus := 200, success := true } := by
  unfold logout
  rw [if_neg (by simp [hb])]

/-- Helper: /logout when a handle exists and the teardown throws. -/
theorem logout_throw (s : St) (b : Bool) (hb : (s.sock.isSome && b) = true) :
    logout s b = { state := s, httpStatus := 500, success := false } := by
  unfold logout
  rw [if_pos hb]

/-- C3 counterexample: a close event carrying the logged-out reason does
not delete the persisted credentials.  From the startup auto-connect state
(auth directory present, live handle), the terminal close leaves
authExists true while the phase becomes Disconnected and no reconnect is
scheduled — the claim says the credentials are deleted here, but only the
explicit /logout route ever removes the auth directory. -/
theorem c3_counterexample :
    (run true [Step.autoConnect, Step.ev (Ev.closeEv (some loggedOutCode))]).authExists = true
    ∧ (run true [Step.autoConnect, Step.ev (Ev.closeEv (some loggedOutCode))]).connectionStatus
        = "disconnected"
    ∧ (run true [Step.autoConnect, Step.ev (Ev.closeEv (some loggedOutCode))]).pendingReconnect
        = false := by
  refine ⟨by decide, by decide, by decide⟩

/-- C3 amended: on a transport close event, exactly the logged-out reason
is terminal — the phase becomes Disconnected, the pairing code is cleared
and no reconnect is scheduled, but the persisted credentials are NOT
deleted (they are preserved in both cases; deletion happens only in the
explicit Logout operation); every other reason, including an absent one,
schedules the fixed-backoff reconnect which re-invokes the connect
sequence with the credentials preserved. -/
theorem c3_close_classification (s : St) (reason : Option Nat)
    (hs : ¬ s.sock = none) :
    (applyEv (Ev.closeEv reason) s).isConnected = false
    ∧ (applyEv (Ev.closeEv reason) s).connectionStatus = "disconnected"
    ∧ (applyEv (Ev.closeEv reason) s).qrCodeData = none
    ∧ (applyEv (Ev.closeEv reason) s).sock = s.sock
    ∧ (applyEv (Ev.closeEv reason) s).authExists = s.authExists
    ∧ (reason = some loggedOutCode →
        (applyEv (Ev.closeEv reason) s).pendingReconnect = s.pendingReconnect)
    ∧ (¬ reason = some loggedOutCode →
        (applyEv (Ev.closeEv reason) s).pendingReconnect = true
        ∧ (reconnectFire (applyEv (Ev.closeEv reason) s)).sock
            = some s.allocCount
        ∧ (reconnectFire (applyEv (Ev.closeEv reason) s)).authExists
            = s.authExists) := by
  by_cases hr : reason = some loggedOutCode
  · rw [applyEv_close_term reason s hs hr]
    exact ⟨rfl, rfl, rfl, rfl, rfl, fun _ => rfl, fun hc => absurd hr hc⟩
  · rw [applyEv_close_rec reason s hs hr]
    exact ⟨rfl, rfl, rfl, rfl, rfl, fun hc => absurd hc hr,
           fun _ => ⟨rfl, rfl, rfl⟩⟩

/-- C3 witness: the amended classification evaluated on the concrete
auto-connect state with an absent close reason. -/
theorem c3_witness :
    (applyEv (Ev.closeEv none) (run true [Step.autoConnect])).connectionStatus
        = "disconnected"
    ∧ (reconnectFire (applyEv (Ev.closeEv none) (run true [Step.autoConnect]))).authExists
        = true := by
  have h := c3_close_classification (run true [Step.autoConnect]) none (by decide)
  refine ⟨h.2.1, ?_⟩
  rw [(h.2.2.2.2.2.2 (by decide)).2.2]
  decide

/-- C4 counterexample: when the transport teardown throws, /logout answers
500 with success false and the state is not reset — the claim that Logout
never fails the caller even when the teardown errors is refuted on the
concrete reachable connected state. -/
theorem c4_counterexample :
    (logout sConn true).success = false
    ∧ (logout sConn true).httpStatus = 500
    ∧ (logout sConn true).state.isConnected = true
    ∧ (logout sConn true).state.sock = some 0
    ∧ sConn.isConnected = true := by
  refine ⟨by decide, by decide, by decide, by decide, by decide⟩

/-- C4 amended: Logout succeeds in every phase whenever the transport
teardown does not throw (in particular whenever no handle is present),
releasing the handle, deleting the credentials and resetting the state to
Disconnected; calling it twice in a row always succeeds both times and
leaves the state Disconnected both times (after the first call no handle
remains, so the second cannot throw); but when a handle is present and its
teardown throws, the caller receives a 500 failure and the state is left
unchanged. -/
theorem c4_logout_behaviour (s : St) (b b2 : Bool) :
    (¬ (s.sock.isSome = true ∧ b = true) →
      (logout s b).success = true
      ∧ (logout s b).httpStatus = 200
      ∧ (logout s b).state.sock = none
      ∧ (logout s b).state.authExists = false
      ∧ (logout s b).state.connectionStatus = "disconnected"
      ∧ (logout s b).state.qrCodeData = none)
    ∧ ((logout s false).success = true
       ∧ (logout s false).state.connectionStatus = "disconnected"
       ∧ (logout (logout s false).state b2).success = true
       ∧ (logout (logout s false).state b2).state.connectionStatus = "disconnected")
    ∧ (s.sock.isSome = true ∧ b = true →
      (logout s b).success = false
      ∧ (logout s b).httpStatus = 500
      ∧ (logout s b).state = s) := by
  refine ⟨?_, ?_, ?_⟩
  · intro hng
    have hb : (s.sock.isSome && b) = false := by
      cases hs : s.sock.isSome <;> cases hbv : b <;> simp_all
    rw [logout_noThrow s b hb]
    exact ⟨rfl, rfl, rfl, rfl, rfl, rfl⟩
  · have h1 := logout_noThrow s false (by simp)
    rw [h1]
    rw [logout_noThrow _ b2 (by simp)]
    exact ⟨rfl, rfl, rfl, rfl⟩
  · intro hpos
    have hb : (s.sock.isSome && b) = true := by
      rw [hpos.1, hpos.2]; rfl
    rw [logout_throw s b hb]
    exact ⟨rfl, rfl, rfl⟩

/-- C4 witness: two consecutive /logout calls from the connected state
both succeed. -/
theorem c4_witness :
    (logout sConn false).success = true
    ∧ (logout (logout sConn false).state true).success = true := by
  have h := c4_logout_behaviour sConn false true
  exact ⟨h.2.1.1, h.2.1.2.2.1⟩

/-- C6: address normalization is a pure total function agreeing with the
spec's step description on every input string, and it maps the three
specified examples — a 00-escaped international number, a number with
plus, spaces and dashes, and the empty string — to the specified
addresses. -/
theorem c6_normalization :
    (∀ s, formatPhoneNumber s = specNormalize s)
    ∧ formatPhoneNumber "0044123456789" = "44123456789@s.whatsapp.net"
    ∧ formatPhoneNumber "+44 123-456-789" = "44123456789@s.whatsapp.net"
    ∧ formatPhoneNumber "" = "@s.whatsapp.net"
    ∧ waDomain = "@s.whatsapp.net" :=
  ⟨fun _ => rfl, by decide, by decide, by decide, by decide⟩

/-- C7: a /initialize call performs at most 20 poll iterations (at 500 ms
each, at most 10 seconds of waiting) and reports exactly one of: already
connected, authenticated during the wait, a pairing code became available,
or failure with neither observed; in the failure case the in-progress
attempt is left alive — the allocated handle is still present, and a later
transport open event would make the state connected. -/
theorem c7_connect_contract (env : Nat → List Ev) (s : St) :
    (initRoute env s).attempts ≤ maxPollAttempts
    ∧ pollIntervalMs * (initRoute env s).attempts ≤ 10000
    ∧ ((initRoute env s).outcome = InitOutcome.failed →
        (initRoute env s).state.isConnected = false
        ∧ (initRoute env s).state.qrCodeData = none
        ∧ (initRoute env s).state.sock.isSome = true
        ∧ (applyEv Ev.openEv (initRoute env s).state).isConnected = true)
    ∧ (∀ c, (initRoute env s).outcome = InitOutcome.qrReady c →
        (initRoute env s).state.qrCodeData = some c)
    ∧ ((initRoute env s).outcome = InitOutcome.authenticated →
        (initRoute env s).state.isConnected = true)
    ∧ ((initRoute env s).outcome = InitOutcome.alreadyConnected →
        (initRoute env s).state = s ∧ s.isConnected = true) := by
  by_cases hcond : (s.sock.isSome && s.isConnected) = true
  · have hrw : initRoute env s
        = { state := s, outcome := InitOutcome.alreadyConnected, attempts := 0 } := by
      simp [initRoute, initEntry_connected s hcond]
    rw [hrw]
    refine ⟨by simp [maxPollAttempts], by simp, ?_, ?_, ?_, ?_⟩
    · intro h; exact InitOutcome.noConfusion h
    · intro c h; exact InitOutcome.noConfusion h
    · intro h; exact InitOutcome.noConfusion h
    · intro _; exact ⟨rfl, ((Bool.and_eq_true _ _).mp hcond).2⟩
  · have hb : (s.sock.isSome && s.isConnected) = false := Bool.eq_false_iff.mpr hcond
    rw [initRoute_notConnected env s hb]
    have hsock := pollAfterConnect_sock env s
    have hne : ¬ (pollAfterConnect env s).1.sock = none := by
      rw [hsock]; exact fun hno => Option.noConfusion hno
    have hatt : (pollAfterConnect env s).2 ≤ maxPollAttempts := by
      unfold pollAfterConnect
      simpa using pollLoop_att env maxPollAttempts _ 0
    have hms : pollIntervalMs * (pollAfterConnect env s).2 ≤ 10000 := by
      unfold pollIntervalMs
      unfold maxPollAttempts at hatt
      omega
    by_cases hc : (pollAfterConnect env s).1.isConnected = true
    · rw [if_pos hc]
      refine ⟨hatt, hms, ?_, ?_, ?_, ?_⟩
      · intro h; exact InitOutcome.noConfusion h
      · intro c h; exact InitOutcome.noConfusion h
      · intro _; exact hc
      · intro h; exact InitOutcome.noConfusion h
    · rw [if_neg hc]
      have hcf : (pollAfterConnect env s).1.isConnected = false :=
        Bool.eq_false_iff.mpr hc
      rcases hqv : (pollAfterConnect env s).1.qrCodeData with _ | c
      · rw [qrOutcome_none _ hqv]
        refine ⟨hatt, hms, ?_, ?_, ?_, ?_⟩
        · intro _
          refine ⟨hcf, hqv, by rw [hsock]; rfl, ?_⟩
          rw [applyEv_open _ hne]
        · intro c h; exact InitOutcome.noConfusion h
        · intro h; exact InitOutcome.noConfusion h
        · intro h; exact InitOutcome.noConfusion h
      · rw [qrOutcome_some _ c hqv]
        refine ⟨hatt, hms, ?_, ?_, ?_, ?_⟩
        · intro h; exact InitOutcome.noConfusion h
        · intro c' h
          have hcc : c = c' := by injection h
          rw [hqv, hcc]
        · intro h; exact InitOutcome.noConfusion h
        · intro h; exact InitOutcome.noConfusion h

/-- C7 witness: with no events arriving, /initialize from the fresh state
polls the full bound, reports failure, and leaves the attempt alive. -/
theorem c7_witness :
    (initRoute (fun _ => []) (initSt false)).attempts ≤ maxPollAttempts
    ∧ (initRoute (fun _ => []) (initSt false)).state.sock.isSome = true := by
  have h := c7_connect_contract (fun _ => []) (initSt false)
  exact ⟨h.1, (h.2.2.1 (by decide)).2.2.1⟩

/-- C8 counterexample: a second /initialize entry arriving while the first
attempt is still Initializing passes the guard (which only checks
isConnected) and allocates a second transport instance: from the fresh
state the first entry allocates handle 0, and a second entry on the
resulting state (status initializing, not connected) allocates handle 1,
bringing the allocation count to 2. -/
theorem c8_counterexample :
    (initEntry (initSt false)).1.connectionStatus = "initializing"
    ∧ (initEntry (initSt false)).1.isConnected = false
    ∧ (initEntry (initSt false)).1.sock = some 0
    ∧ (initEntry (initEntry (initSt false)).1).1.allocCount = 2
    ∧ (initEntry (initEntry (initSt false)).1).1.sock = some 1 := by
  refine ⟨by decide, by decide, by decide, by decide, by decide⟩

/-- C8 amended: a connect request while a live handle is already connected
is a no-op returning the current state; but a connect request in any
not-connected state — including while a previous attempt is still
Initializing — always allocates a fresh transport instance replacing the
handle, so two concurrent connect calls do allocate two transports. -/
theorem c8_concurrent_connect (s : St) :
    (∀ env : Nat → List Ev, s.sock.isSome = true → s.isConnected = true →
       initRoute env s
         = { state := s, outcome := InitOutcome.alreadyConnected, attempts := 0 })
    ∧ (s.isConnected = false →
        (initEntry s).2 = false
        ∧ (initEntry s).1.allocCount = s.allocCount + 1
        ∧ (initEntry s).1.sock = some s.allocCount
        ∧ (initEntry s).1.connectionStatus = "initializing") := by
  constructor
  · intro env hs hc
    have he := initEntry_connected s (by rw [hs, hc]; rfl)
    simp [initRoute, he]
  · intro hc
    have hb : (s.sock.isSome && s.isConnected) = false := by rw [hc]; simp
    rw [initEntry_notConnected s hb]
    exact ⟨rfl, rfl, rfl, rfl⟩

/-- C8 witness: a connect request on the concrete connected state is a
no-op returning the current state. -/
theorem c8_witness :
    initRoute (fun _ => []) sConn
      = { state := sConn, outcome := InitOutcome.alreadyConnected, attempts := 0 } := by
  have h := c8_concurrent_connect sConn
  exact h.1 (fun _ => []) (by decide) (by decide)

/-- Helper: the mode string 'numbers' is truthy. -/
theorem truthy_numbers : truthy (some "numbers") = true := by decide

/-- Helper: the mode string 'group' is truthy. -/
theorem truthy_group : truthy (some "group") = true := by decide

/-- Helper string fact. -/
theorem str_numbers_ne_group : ("numbers" : String) ≠ "group" := by decide

/-- Helper string fact. -/
theorem str_group_ne_numbers : ("group" : String) ≠ "numbers" := by decide

/-- Helper: /publish without a connected handle rejects with 400 and sends
nothing. -/
theorem publish_notConnected (s : St) (req : PublishReq) (sendRes : Nat → Option String)
    (h : ¬ (s.sock.isSome = true ∧ s.isConnected = true)) :
    publish s req sendRes
      = { httpStatus := 400, success := false,
          message := "WhatsApp not connected", results := [], sent := [] } := by
  unfold publish
  rw [if_pos]
  cases hs : s.sock.isSome <;> cases hc : s.isConnected <;> simp_all

/-- Helper: /publish with a falsy mode or caption rejects with 400 and
sends nothing. -/
theorem publish_missing (s : St) (req : PublishReq) (sendRes : Nat → Option String)
    (hsock : s.sock.isSome = true) (hconn : s.isConnected = true)
    (h : ¬ (truthy req.mode = true ∧ truthy req.caption = true)) :
    publish s req sendRes
      = { httpStatus := 400, success := false,
          message := "Missing required fields", results := [], sent := [] } := by
  unfold publish
  rw [if_neg (by simp [hsock, hconn]), if_pos]
  cases hm : truthy req.mode <;> cases hc : truthy req.caption <;> simp_all

/-- Helper: /publish in direct mode with a non-empty recipients array, in
closed form. -/
theorem publish_direct (s : St) (req : PublishReq) (sendRes : Nat → Option String)
    (l : List String)
    (hsock : s.sock.isSome = true) (hconn : s.isConnected = true)
    (hmode : req.mode = some "numbers") (hcap : truthy req.caption = true)
    (hrec : req.recipients = some l) (hne : l ≠ []) :
    publish s req sendRes
      = { httpStatus := 200,
          success := (l.mapIdx (fun j r => mkEntry (sendRes j) r)).all (fun e => e.success),
          message := if (l.mapIdx (fun j r => mkEntry (sendRes j) r)).all (fun e => e.success)
            then "Messages sent successfully" else "Some messages failed",
          results := l.mapIdx (fun j r => mkEntry (sendRes j) r),
          sent := l.map (fun r =>
            sendPayload (formatPhoneNumber r) (req.caption.getD "") req.mediaUrl req.mediaType) } := by
  simp only [publish, hmode, hrec, hsock, hconn, hcap, truthy_numbers,
             directLoop_spec, Option.getD_some, Option.isSome_some,
             Option.some.injEq, str_numbers_ne_group, hne,
             Bool.and_self, Bool.not_true, Bool.false_eq_true, if_false,
             ne_eq, not_false_eq_true, and_self, and_true, true_and, if_true,
             false_and, List.append_nil, Nat.zero_add]

/-- Helper: /publish in direct mode with an absent or empty recipients
array performs no send and answers success with empty results. -/
theorem publish_direct_empty (s : St) (req : PublishReq) (sendRes : Nat → Option String)
    (hsock : s.sock.isSome = true) (hconn : s.isConnected = true)
    (hmode : req.mode = some "numbers") (hcap : truthy req.caption = true)
    (hrec : req.recipients.getD [] = []) :
    publish s req sendRes
      = { httpStatus := 200, success := true,
          message := "Messages sent successfully", results := [], sent := [] } := by
  simp only [publish, hmode, hrec, hsock, hconn, hcap, truthy_numbers,
             Option.some.injEq, str_numbers_ne_group,
             Bool.and_self, Bool.not_true, Bool.false_eq_true, if_false,
             ne_eq, not_true_eq_false, and_false, false_and, and_self,
             List.append_nil, List.nil_append, List.all_nil]
  rfl

/-- Helper: /publish in group mode with a truthy groupId, in closed form:
one send addressed to the raw groupId, one synthetic outcome entry. -/
theorem publish_group (s : St) (req : PublishReq) (sendRes : Nat → Option String)
    (hsock : s.sock.isSome = true) (hconn : s.isConnected = true)
    (hmode : req.mode = some "group") (hcap : truthy req.caption = true)
    (hgid : truthy req.groupId = true) :
    publish s req sendRes
      = { httpStatus := 200,
          success := (mkEntry (sendRes 0) "group").success,
          message := if (mkEntry (sendRes 0) "group").success
            then "Messages sent successfully" else "Some messages failed",
          results := [mkEntry (sendRes 0) "group"],
          sent := [sendPayload (req.groupId.getD "") (req.caption.getD "")
                     req.mediaUrl req.mediaType] } := by
  simp only [publish, hmode, hgid, hsock, hconn, hcap, truthy_group,
             Option.some.injEq, str_group_ne_numbers,
             Bool.and_self, Bool.not_true, Bool.false_eq_true, if_false,
             and_self, and_true, true_and, if_true, false_and,
             List.nil_append, List.length_nil, List.all_cons, List.all_nil,
             Bool.and_true]

/-- Helper: /publish in group mode with a falsy groupId performs no send
and answers success with empty results. -/
theorem publish_group_missing (s : St) (req : PublishReq) (sendRes : Nat → Option String)
    (hsock : s.sock.isSome = true) (hconn : s.isConnected = true)
    (hmode : req.mode = some "group") (hcap : truthy req.caption = true)
    (hgid : truthy req.groupId = false) :
    publish s req sendRes
      = { httpStatus := 200, success := true,
          message := "Messages sent successfully", results := [], sent := [] } := by
  simp only [publish, hmode, hgid, hsock, hconn, hcap, truthy_group,
             Option.some.injEq, str_group_ne_numbers,
             Bool.and_self, Bool.not_true, Bool.false_eq_true, if_false,
             and_false, false_and, and_self,
             List.append_nil, List.all_nil]
  rfl

/-- Helper: a send payload is always addressed to the target it was built
for. -/
theorem sendPayload_target (tgt caption : String) (mu mt : Option String) :
    (sendPayload tgt caption mu mt).target = tgt := by
  unfold sendPayload
  split_ifs <;> simp [Msg.target]

/-- Helper: an outcome entry always carries the recipient it was built
for. -/
theorem mkEntry_recipient (res : Option String) (r : String) :
    (mkEntry res r).recipient = r := by
  cases res <;> simp [mkEntry]

/-- Helper: projecting the recipient field out of an indexed entry list
recovers the original recipient list. -/
theorem map_recipient_mapIdx (f : Nat → String → Entry)
    (hf : ∀ i r, (f i r).recipient = r) :
    ∀ l : List String, (l.mapIdx f).map (fun e => e.recipient) = l := by
  intro l
  induction l generalizing f with
  | nil => rfl
  | cons r rest ih =>
    rw [List.mapIdx_cons, List.map_cons, hf,
        ih (fun i a => f (i + 1) a) (fun i a => hf _ _)]

/-- C2 counterexample: in the connected state, a direct-mode request whose
recipients array is empty does not fail with InvalidRequest — it is
answered 200 with success true and an empty outcome list (and no send is
attempted).  The claim requires an InvalidRequest failure here. -/
theorem c2_counterexample :
    (publish sConn
      { mode := some "numbers", recipients := some [], groupId := none,
        caption := some "hi", mediaUrl := none, mediaType := none }
      (fun _ => none)).httpStatus = 200
    ∧ (publish sConn
      { mode := some "numbers", recipients := some [], groupId := none,
        caption := some "hi", mediaUrl := none, mediaType := none }
      (fun _ => none)).success = true
    ∧ (publish sConn
      { mode := some "numbers", recipients := some [], groupId := none,
        caption := some "hi", mediaUrl := none, mediaType := none }
      (fun _ => none)).sent = [] := by
  refine ⟨by decide, by decide, by decide⟩

/-- C2 amended: Publish fails with NotConnected (400) when no connected
handle exists and with InvalidRequest (400) when mode or caption is
missing or empty, sending nothing in both cases; but when the
mode-specific target (recipients for direct mode, groupId for group mode)
is absent or empty, the request does not fail — nothing is sent and the
response reports success with an empty outcome list. -/
theorem c2_publish_preconditions (s : St) (req : PublishReq) (sendRes : Nat → Option String) :
    (¬ (s.sock.isSome = true ∧ s.isConnected = true) →
       publish s req sendRes
         = { httpStatus := 400, success := false,
             message := "WhatsApp not connected", results := [], sent := [] })
    ∧ (s.sock.isSome = true → s.isConnected = true →
       ¬ (truthy req.mode = true ∧ truthy req.caption = true) →
       publish s req sendRes
         = { httpStatus := 400, success := false,
             message := "Missing required fields", results := [], sent := [] })
    ∧ (s.sock.isSome = true → s.isConnected = true →
       req.mode = some "numbers" → truthy req.caption = true →
       req.recipients.getD [] = [] →
       publish s req sendRes
         = { httpStatus := 200, success := true,
             message := "Messages sent successfully", results := [], sent := [] })
    ∧ (s.sock.isSome = true → s.isConnected = true →
       req.mode = some "group" → truthy req.caption = true →
       truthy req.groupId = false →
       publish s req sendRes
         = { httpStatus := 200, success := true,
             message := "Messages sent successfully", results := [], sent := [] }) :=
  ⟨fun h => publish_notConnected s req sendRes h,
   fun h1 h2 h3 => publish_missing s req sendRes h1 h2 h3,
   fun h1 h2 h3 h4 h5 => publish_direct_empty s req sendRes h1 h2 h3 h4 h5,
   fun h1 h2 h3 h4 h5 => publish_group_missing s req sendRes h1 h2 h3 h4 h5⟩

/-- C2 witness: a publish attempt in the fresh disconnected state fails
with the NotConnected rejection. -/
theorem c2_witness :
    publish (initSt false)
      { mode := some "numbers", recipients := some ["1"], groupId := none,
        caption := some "hi", mediaUrl := none, mediaType := none }
      (fun _ => none)
      = { httpStatus := 400, success := false,
          message := "WhatsApp not connected", results := [], sent := [] } := by
  have h := c2_publish_preconditions (initSt false)
    { mode := some "numbers", recipients := some ["1"], groupId := none,
      caption := some "hi", mediaUrl := none, mediaType := none }
    (fun _ => none)
  exact h.1 (by decide)

/-- C5: for every connected direct-mode request with recipient list l, the
outcome list has exactly one entry per recipient in input order, the i-th
entry determined solely by the i-th send outcome (a failure never aborts
or skips later recipients), the sends happen one per recipient in input
order, and the overall success flag is the conjunction of the individual
outcomes. -/
theorem c5_partial_failure (s : St) (req : PublishReq)
    (sendRes : Nat → Option String) (l : List String)
    (hsock : s.sock.isSome = true) (hconn : s.isConnected = true)
    (hmode : req.mode = some "numbers") (hcap : truthy req.caption = true)
    (hrec : req.recipients = some l) (hne : l ≠ []) :
    (publish s req sendRes).results = l.mapIdx (fun i r => mkEntry (sendRes i) r)
    ∧ (publish s req sendRes).results.length = l.length
    ∧ (publish s req sendRes).sent
        = l.map (fun r =>
            sendPayload (formatPhoneNumber r) (req.caption.getD "")
              req.mediaUrl req.mediaType)
    ∧ (publish s req sendRes).success
        = (publish s req sendRes).results.all (fun e => e.success)
    ∧ (publish s req sendRes).httpStatus = 200 := by
  rw [publish_direct s req sendRes l hsock hconn hmode hcap hrec hne]
  refine ⟨rfl, by simp, rfl, rfl, rfl⟩

/-- C5 witness: three recipients with the second send failing — three
entries in order, entry 2 failed, entries 1 and 3 succeeded, overall
success false. -/
theorem c5_witness :
    (publish sConn
      { mode := some "numbers", recipients := some ["111", "222", "333"],
        groupId := none, caption := some "hi", mediaUrl := none, mediaType := none }
      (fun i => if i = 1 then some "boom" else none)).results
      = [{ recipient := "111", success := true, error := none },
         { recipient := "222", success := false, error := some "boom" },
         { recipient := "333", success := true, error := none }]
    ∧ (publish sConn
      { mode := some "numbers", recipients := some ["111", "222", "333"],
        groupId := none, caption := some "hi", mediaUrl := none, mediaType := none }
      (fun i => if i = 1 then some "boom" else none)).success = false := by
  have h := c5_partial_failure sConn
    { mode := some "numbers", recipients := some ["111", "222", "333"],
      groupId := none, caption := some "hi", mediaUrl := none, mediaType := none }
    (fun i => if i = 1 then some "boom" else none)
    ["111", "222", "333"] (by decide) (by decide) rfl (by decide) rfl (by decide)
  constructor
  · rw [h.1]; decide
  · rw [h.2.2.2.1, h.1]; decide

/-- C9 counterexample: a request carrying a present but empty mediaUrl
sends a plain text message, refuting the claim that a media message is
sent whenever mediaUrl is present — the code branches on JavaScript
truthiness, which treats the empty string as absent. -/
theorem c9_counterexample :
    (some "" : Option String).isSome = true
    ∧ (publish sConn
        { mode := some "numbers", recipients := some ["7"], groupId := none,
          caption := some "hi", mediaUrl := some "", mediaType := none }
        (fun _ => none)).sent = [Msg.text "7@s.whatsapp.net" "hi"] := by
  refine ⟨by decide, by decide⟩

/-- C9 amended: for every send, a media message is sent if and only if
mediaUrl is present AND non-empty (otherwise a plain text message with the
caption is sent), and any mediaType other than the exact string video —
including a missing or unrecognized value — makes the media an image; the
group-mode send of publish is exactly one such payload addressed to the
raw groupId. -/
theorem c9_media_branch (tgt caption : String) (mu mt : Option String)
    (s : St) (req : PublishReq) (sendRes : Nat → Option String) :
    (truthy mu = false → sendPayload tgt caption mu mt = Msg.text tgt caption)
    ∧ (truthy mu = true → mt = some "video" →
        sendPayload tgt caption mu mt = Msg.video tgt (mu.getD "") caption)
    ∧ (truthy mu = true → ¬ mt = some "video" →
        sendPayload tgt caption mu mt = Msg.image tgt (mu.getD "") caption)
    ∧ (s.sock.isSome = true → s.isConnected = true →
       req.mode = some "group" → truthy req.caption = true →
       truthy req.groupId = true →
       (publish s req sendRes).sent
         = [sendPayload (req.groupId.getD "") (req.caption.getD "")
              req.mediaUrl req.mediaType]) := by
  refine ⟨?_, ?_, ?_, ?_⟩
  · intro hf; unfold sendPayload; rw [if_neg (by simp [hf])]
  · intro ht hv; unfold sendPayload; rw [if_pos ht, if_pos hv]
  · intro ht hv; unfold sendPayload; rw [if_pos ht, if_neg hv]
  · intro h1 h2 h3 h4 h5
    rw [publish_group s req sendRes h1 h2 h3 h4 h5]

/-- C9 witness: the three payload branches evaluated at concrete inputs —
empty url gives text, url with mediaType video gives video, url with an
unrecognized mediaType gives image. -/
theorem c9_witness :
    sendPayload "a" "c" (some "") none = Msg.text "a" "c"
    ∧ sendPayload "a" "c" (some "u") (some "video") = Msg.video "a" "u" "c"
    ∧ sendPayload "a" "c" (some "u") (some "gif") = Msg.image "a" "u" "c" := by
  have h1 := c9_media_branch "a" "c" (some "") none (initSt false)
    { mode := none, recipients := none, groupId := none,
      caption := none, mediaUrl := none, mediaType := none } (fun _ => none)
  have h2 := c9_media_branch "a" "c" (some "u") (some "video") (initSt false)
    { mode := none, recipients := none, groupId := none,
      caption := none, mediaUrl := none, mediaType := none } (fun _ => none)
  have h3 := c9_media_branch "a" "c" (some "u") (some "gif") (initSt false)
    { mode := none, recipients := none, groupId := none,
      caption := none, mediaUrl := none, mediaType := none } (fun _ => none)
  exact ⟨h1.1 (by decide), h2.2.1 (by decide) rfl, h3.2.2.1 (by decide) (by decide)⟩

/-- C10: each direct-mode outcome entry carries the caller's original
recipient string while the messages themselves are addressed to the
normalized form, and every group-mode outcome entry carries the fixed
synthetic identifier 'group' while the message goes to the raw groupId. -/
theorem c10_outcome_identity (s : St) (req : PublishReq)
    (sendRes : Nat → Option String) (l : List String)
    (hsock : s.sock.isSome = true) (hconn : s.isConnected = true)
    (hcap : truthy req.caption = true) :
    (req.mode = some "numbers" → req.recipients = some l → l ≠ [] →
      (publish s req sendRes).results.map (fun e => e.recipient) = l
      ∧ (publish s req sendRes).sent.map Msg.target = l.map formatPhoneNumber)
    ∧ (req.mode = some "group" → truthy req.groupId = true →
      (publish s req sendRes).results.map (fun e => e.recipient) = ["group"]
      ∧ (publish s req sendRes).sent.map Msg.target = [req.groupId.getD ""]) := by
  constructor
  · intro hmode hrec hne
    rw [publish_direct s req sendRes l hsock hconn hmode hcap hrec hne]
    constructor
    · exact map_recipient_mapIdx _ (fun i r => mkEntry_recipient _ _) l
    · rw [List.map_map]
      simp [Function.comp, sendPayload_target]
  · intro hmode hgid
    rw [publish_group s req sendRes hsock hconn hmode hcap hgid]
    exact ⟨by simp [mkEntry_recipient], by simp [sendPayload_target]⟩

/-- C10 witness: a recipient string needing normalization — the outcome
entry keeps the original string while the message was addressed to the
normalized form. -/
theorem c10_witness :
    (publish sConn
      { mode := some "numbers", recipients := some ["+44 123-456-789"],
        groupId := none, caption := some "hi", mediaUrl := none, mediaType := none }
      (fun _ => none)).results.map (fun e => e.recipient) = ["+44 123-456-789"]
    ∧ (publish sConn
      { mode := some "numbers", recipients := some ["+44 123-456-789"],
        groupId := none, caption := some "hi", mediaUrl := none, mediaType := none }
      (fun _ => none)).sent.map Msg.target = ["44123456789@s.whatsapp.net"] := by
  have h := c10_outcome_identity sConn
    { mode := some "numbers", recipients := some ["+44 123-456-789"],
      groupId := none, caption := some "hi", mediaUrl := none, mediaType := none }
    (fun _ => none) ["+44 123-456-789"] (by decide) (by decide) (by decide)
  have hd := h.1 rfl rfl (by decide)
  exact ⟨hd.1, hd.2.trans (by decide)⟩

end WS
